import Mathlib

/-!
# Verification of the friendly-medbot chat client and schema layer

Shallow embedding of the two source files of the repository:

* `src/shared/schema.ts` — the drizzle/zod table definitions and the
  insert-validation schemas (`insertMessageSchema`, `insertConversationSchema`).
* `src/client/src/pages/chat.tsx` — the `Chat` page component: the
  conversation-creation mutation, the send-message mutation, the quick-action
  mutation, and the `handleSendMessage` / `handleQuickAction` handlers.

The client is embedded as an explicit state record (`ClientState`) holding the
component state (`conversationId`, `messageInput`, `isTyping`), the react-query
message cache, the in-flight counters of the three mutations, the toasts shown,
the trace of HTTP requests issued, and the number of query invalidations.  Each
handler and each mutation callback of the source becomes a function on that
record, and the possible UI/network events become a step relation `Step` with
`Reachable` as its reflexive-transitive closure from the initial component
state.
-/

namespace MedBot

/-! ## JavaScript string trimming

`String.prototype.trim` removes leading and trailing whitespace.  The exact
whitespace set below covers the characters relevant here (the proofs about
trimming are independent of the particular predicate). -/

def jsWhitespace (c : Char) : Bool :=
  c == ' ' || c == '\t' || c == '\n' || c == '\r' ||
  c == Char.ofNat 11 || c == Char.ofNat 12 || c == Char.ofNat 160

/-- The character-list form of JS `trim`: drop whitespace from the front,
then from the back. -/
def jsTrimList (l : List Char) : List Char :=
  List.rdropWhile jsWhitespace (List.dropWhile jsWhitespace l)

/-- Model of `s.trim()` from `chat.tsx`. -/
def jsTrim (s : String) : String :=
  ⟨jsTrimList s.data⟩

/-- A list with no leading `p`-elements keeps that property when restricted
to a prefix. -/
theorem dropWhile_eq_self_of_pre {p : Char → Bool} {l m : List Char}
    (h : l.dropWhile p = l) (hm : m <+: l) : m.dropWhile p = m := by
  rcases m with _ | ⟨a, m'⟩
  · rfl
  · rcases hm with ⟨t, ht⟩
    subst ht
    rw [List.dropWhile_eq_self_iff] at h ⊢
    intro hl
    have ha := h (by simp)
    simpa using ha

theorem dropWhile_jsTrimList (l : List Char) :
    List.dropWhile jsWhitespace (jsTrimList l) = jsTrimList l := by
  refine dropWhile_eq_self_of_pre
    (List.dropWhile_idempotent jsWhitespace l) ?_
  exact List.rdropWhile_prefix jsWhitespace (List.dropWhile jsWhitespace l)

/-- JS `trim` is idempotent on character lists. -/
theorem jsTrimList_idempotent (l : List Char) :
    jsTrimList (jsTrimList l) = jsTrimList l := by
  show List.rdropWhile jsWhitespace (List.dropWhile jsWhitespace (jsTrimList l)) = jsTrimList l
  rw [dropWhile_jsTrimList l]
  exact List.rdropWhile_idempotent jsWhitespace (List.dropWhile jsWhitespace l)

/-- JS `trim` is idempotent on strings: a trimmed draft has no leading or
trailing whitespace left to remove. -/
theorem jsTrim_idempotent (s : String) : jsTrim (jsTrim s) = jsTrim s := by
  show (⟨jsTrimList (jsTrimList s.data)⟩ : String) = ⟨jsTrimList s.data⟩
  rw [jsTrimList_idempotent]

/-! ## Schema/validation layer (`src/shared/schema.ts`)

The `messages` table has columns `id` (serial primary key), `conversationId`
(nullable integer), `role` (non-null text), `content` (non-null text),
`timestamp` (defaulted), `isTyping` (defaulted).  `createInsertSchema` makes a
zod object whose required fields are exactly the non-null, non-defaulted
columns, and `.omit` removes `id`, `timestamp`, `isTyping`
(resp. `id`, `createdAt`).  A zod object in its default mode strips unknown
keys rather than rejecting them, so parsing a JSON body is modelled as a
function from a record of optional fields to an `Option` of the insert type,
ignoring the omitted columns. -/

/-- A JSON body offered to `insertMessageSchema`: every column of the
`messages` table may be present or absent.  `conversationId` is nullable, so
presence carries an `Option Nat` (`some none` = explicit null). -/
structure MessageInput where
  id : Option Nat
  conversationId : Option (Option Nat)
  role : Option String
  content : Option String
  timestamp : Option Nat
  isTyping : Option Bool
deriving DecidableEq, Repr

/-- The value produced by a successful `insertMessageSchema.parse`: only the
creation-time fields survive. -/
structure InsertMessage where
  conversationId : Option (Option Nat)
  role : String
  content : String
deriving DecidableEq, Repr

/-- `insertMessageSchema` (`schema.ts` lines 37–41): `role` and `content` are
required strings, `conversationId` is optional/nullable, and `id`,
`timestamp`, `isTyping` are omitted (stripped, never validated or kept). -/
def insertMessageSchemaParse (i : MessageInput) : Option InsertMessage :=
  match i.role, i.content with
  | some r, some c => some ⟨i.conversationId, r, c⟩
  | _, _ => none

/-- A JSON body offered to `insertConversationSchema`. -/
structure ConversationInput where
  id : Option Nat
  userId : Option (Option String)
  title : Option (Option String)
  createdAt : Option Nat
deriving DecidableEq, Repr

/-- The value produced by a successful `insertConversationSchema.parse`. -/
structure InsertConversation where
  userId : Option (Option String)
  title : Option (Option String)
deriving DecidableEq, Repr

/-- `insertConversationSchema` (`schema.ts` lines 32–35): `userId` is a
nullable text column and `title` has a default, so both are optional; `id`
and `createdAt` are omitted. -/
def insertConversationSchemaParse (i : ConversationInput) : Option InsertConversation :=
  some ⟨i.userId, i.title⟩

/-! ## Chat client state machine (`src/client/src/pages/chat.tsx`) -/

/-- The client-side `Message` type (`schema.ts` `$inferSelect` on `messages`):
`conversationId` is a nullable column, timestamps are modelled as `Nat`
(JS epoch milliseconds). -/
structure Message where
  id : Nat
  conversationId : Option Nat
  role : String
  content : String
  timestamp : Nat
  isTyping : Bool
deriving DecidableEq, Repr

/-- An HTTP request issued by the client, as built by the three `mutationFn`s
of `chat.tsx`. -/
inductive Req where
  | createConversation (userId title : String)
  | postMessage (conversationId : Nat) (content : String)
  | quickAction (action : String)
deriving DecidableEq, Repr

/-- The observable client state of the `Chat` component: the three `useState`
hooks, the react-query message cache, the pending counters of the three
mutations, the toasts raised, the trace of requests issued, and the number of
invalidations of the message query. -/
structure ClientState where
  conversationId : Option Nat
  messageInput : String
  isTyping : Bool
  messagesCache : List Message
  sendInFlight : Nat
  quickInFlight : Nat
  createInFlight : Nat
  mounted : Bool
  errors : List String
  requests : List Req
  invalidations : Nat
deriving DecidableEq, Repr

/-- The component's initial state (`useState` initialisers, lines 41–43). -/
def initialState : ClientState :=
  { conversationId := none
    messageInput := ""
    isTyping := false
    messagesCache := []
    sendInFlight := 0
    quickInFlight := 0
    createInFlight := 0
    mounted := false
    errors := []
    requests := []
    invalidations := 0 }

/-- The mount effect (lines 143–147): with no conversation id held, fire
`createConversationMutation.mutate()`, whose `mutationFn` posts
`/api/conversations` with the fixed anonymous body (lines 51–56). -/
def mountEffect (s : ClientState) : ClientState :=
  if s.conversationId = none then
    { s with mounted := true
             createInFlight := s.createInFlight + 1
             requests := s.requests ++ [.createConversation "anonymous" "MedAssist Chat"] }
  else
    { s with mounted := true }

/-- `createConversationMutation.onSuccess` (lines 58–60). -/
def createConversationOnSuccess (s : ClientState) (id : Nat) : ClientState :=
  { s with conversationId := some id
           createInFlight := s.createInFlight - 1 }

/-- `createConversationMutation.onError` (lines 61–67): toast only, no retry. -/
def createConversationOnError (s : ClientState) : ClientState :=
  { s with errors := s.errors ++ ["Failed to start conversation. Please refresh the page."]
           createInFlight := s.createInFlight - 1 }

/-- `handleSendMessage` (lines 162–165) combined with the start of
`sendMessageMutation` (lines 77–88): return unless the trimmed draft is
non-empty and no send is pending; otherwise `mutate` runs `onMutate`
(`setIsTyping(true)`) and then the `mutationFn`, which throws
`"No conversation"` before any request when no conversation id is held, and
otherwise posts the trimmed content to
`/api/conversations/{id}/messages`. -/
def handleSendMessage (s : ClientState) : ClientState :=
  if jsTrim s.messageInput = "" ∨ s.sendInFlight ≠ 0 then s
  else
    match s.conversationId with
    | some cid =>
        { s with isTyping := true
                 sendInFlight := s.sendInFlight + 1
                 requests := s.requests ++ [.postMessage cid (jsTrim s.messageInput)] }
    | none =>
        { s with isTyping := true
                 sendInFlight := s.sendInFlight + 1 }

/-- `sendMessageMutation.onSuccess` (lines 89–93): invalidate the message
query (a server re-fetch, not a local cache edit), clear the draft, exit
Typing. -/
def sendMessageOnSuccess (s : ClientState) : ClientState :=
  { s with invalidations := s.invalidations + 1
           messageInput := ""
           isTyping := false
           sendInFlight := s.sendInFlight - 1 }

/-- `sendMessageMutation.onError` (lines 94–101): exit Typing and toast; the
draft input is not touched. -/
def sendMessageOnError (s : ClientState) (msg : String) : ClientState :=
  { s with isTyping := false
           errors := s.errors ++ [msg]
           sendInFlight := s.sendInFlight - 1 }

/-- `handleQuickAction` (lines 167–169) with the start of
`quickActionMutation` (lines 105–112): no guard in the handler itself (the
buttons are disabled while pending, which is the step relation's guard);
`onMutate` sets Typing and the `mutationFn` posts `/api/quick-actions`. -/
def handleQuickAction (s : ClientState) (action : String) : ClientState :=
  { s with isTyping := true
           quickInFlight := s.quickInFlight + 1
           requests := s.requests ++ [.quickAction action] }

/-- `quickActionMutation.onSuccess` (lines 113–131): when a conversation id
is held, append a synthetic assistant message (`id` and `timestamp` both from
the current clock `now`) to the cached list via `setQueryData`; otherwise do
nothing with the content.  Either way exit Typing.  No invalidation. -/
def quickActionOnSuccess (s : ClientState) (content : String) (now : Nat) : ClientState :=
  match s.conversationId with
  | some cid =>
      { s with messagesCache := s.messagesCache ++
                 [{ id := now
                    conversationId := some cid
                    role := "assistant"
                    content := content
                    timestamp := now
                    isTyping := false }]
               isTyping := false
               quickInFlight := s.quickInFlight - 1 }
  | none =>
      { s with isTyping := false
               quickInFlight := s.quickInFlight - 1 }

/-- `quickActionMutation.onError` (lines 132–139). -/
def quickActionOnError (s : ClientState) (msg : String) : ClientState :=
  { s with isTyping := false
           errors := s.errors ++ [msg]
           quickInFlight := s.quickInFlight - 1 }

/-- The events the UI and the network can deliver.  Guards reflect the DOM:
the mount effect has an empty dependency array, so it fires once; the
textarea is disabled while a send is pending (line 353); the quick-action
buttons are disabled while a quick action is pending (line 251); the send
button/Enter key always reach `handleSendMessage`, which guards internally;
a completion can only arrive for a request in flight; the message query can
re-fetch whenever it is enabled (a conversation id is held, line 73). -/
inductive Step : ClientState → ClientState → Prop where
  | mount (s : ClientState) :
      s.mounted = false → Step s (mountEffect s)
  | createSuccess (s : ClientState) (id : Nat) :
      s.createInFlight ≠ 0 → Step s (createConversationOnSuccess s id)
  | createError (s : ClientState) :
      s.createInFlight ≠ 0 → Step s (createConversationOnError s)
  | editInput (s : ClientState) (v : String) :
      s.sendInFlight = 0 → Step s { s with messageInput := v }
  | submit (s : ClientState) :
      Step s (handleSendMessage s)
  | sendSuccess (s : ClientState) :
      s.sendInFlight ≠ 0 → Step s (sendMessageOnSuccess s)
  | sendError (s : ClientState) (msg : String) :
      s.sendInFlight ≠ 0 → Step s (sendMessageOnError s msg)
  | quickClick (s : ClientState) (a : String) :
      s.quickInFlight = 0 → Step s (handleQuickAction s a)
  | quickSuccess (s : ClientState) (content : String) (now : Nat) :
      s.quickInFlight ≠ 0 → Step s (quickActionOnSuccess s content now)
  | quickError (s : ClientState) (msg : String) :
      s.quickInFlight ≠ 0 → Step s (quickActionOnError s msg)
  | refetch (s : ClientState) (msgs : List Message) :
      s.conversationId ≠ none → Step s { s with messagesCache := msgs }

/-- States the client can be in, starting from the fresh component. -/
inductive Reachable : ClientState → Prop where
  | init : Reachable initialState
  | step {s t : ClientState} : Reachable s → Step s t → Reachable t

def isCreateReq : Req → Bool
  | .createConversation _ _ => true
  | _ => false

/-- Number of `createConversation` requests the client has issued. -/
def createCount (l : List Req) : Nat :=
  (l.filter isCreateReq).length

theorem createCount_append (l₁ l₂ : List Req) :
    createCount (l₁ ++ l₂) = createCount l₁ + createCount l₂ := by
  simp [createCount, List.filter_append]

theorem createCount_create (u t : String) :
    createCount [.createConversation u t] = 1 := rfl

theorem createCount_post (c : Nat) (m : String) :
    createCount [.postMessage c m] = 0 := rfl

theorem createCount_quick (a : String) :
    createCount [.quickAction a] = 0 := rfl

/-! Equation lemmas for the handlers that branch on the held conversation
id or on the submit guard. -/

theorem handleSendMessage_guard (s : ClientState)
    (h : jsTrim s.messageInput = "" ∨ s.sendInFlight ≠ 0) :
    handleSendMessage s = s := by
  unfold handleSendMessage
  rw [if_pos h]

theorem handleSendMessage_some (s : ClientState) (cid : Nat)
    (hcid : s.conversationId = some cid)
    (hne : jsTrim s.messageInput ≠ "") (hs0 : s.sendInFlight = 0) :
    handleSendMessage s =
      { s with isTyping := true
               sendInFlight := s.sendInFlight + 1
               requests := s.requests ++ [.postMessage cid (jsTrim s.messageInput)] } := by
  unfold handleSendMessage
  rw [if_neg (by push_neg; exact ⟨hne, hs0⟩), hcid]

theorem handleSendMessage_none (s : ClientState)
    (hcid : s.conversationId = none)
    (hne : jsTrim s.messageInput ≠ "") (hs0 : s.sendInFlight = 0) :
    handleSendMessage s =
      { s with isTyping := true
               sendInFlight := s.sendInFlight + 1 } := by
  unfold handleSendMessage
  rw [if_neg (by push_neg; exact ⟨hne, hs0⟩), hcid]

theorem quickActionOnSuccess_some (s : ClientState) (content : String) (now : Nat)
    (cid : Nat) (hcid : s.conversationId = some cid) :
    quickActionOnSuccess s content now =
      { s with messagesCache := s.messagesCache ++
                 [{ id := now
                    conversationId := some cid
                    role := "assistant"
                    content := content
                    timestamp := now
                    isTyping := false }]
               isTyping := false
               quickInFlight := s.quickInFlight - 1 } := by
  unfold quickActionOnSuccess
  rw [hcid]

theorem quickActionOnSuccess_none (s : ClientState) (content : String) (now : Nat)
    (hcid : s.conversationId = none) :
    quickActionOnSuccess s content now =
      { s with isTyping := false
               quickInFlight := s.quickInFlight - 1 } := by
  unfold quickActionOnSuccess
  rw [hcid]

/-- Master invariant of the reachable client states: each mutation has at
most one request in flight; at most one `createConversation` is ever issued,
and none before mount; while the create is in flight (and before mount) no
conversation id is held; and every `postMessage` ever issued targets the
currently held conversation id with trimmed, non-empty content. -/
def Inv (s : ClientState) : Prop :=
  s.sendInFlight ≤ 1 ∧
  s.quickInFlight ≤ 1 ∧
  s.createInFlight ≤ 1 ∧
  createCount s.requests ≤ 1 ∧
  (s.mounted = false →
    s.createInFlight = 0 ∧ createCount s.requests = 0 ∧ s.conversationId = none) ∧
  (s.createInFlight ≠ 0 → s.conversationId = none) ∧
  (∀ c m, Req.postMessage c m ∈ s.requests →
    s.conversationId = some c ∧ jsTrim m = m ∧ m ≠ "")

theorem inv_initial : Inv initialState := by
  refine ⟨by decide, by decide, by decide, by decide, ?_, ?_, ?_⟩
  · exact fun _ => ⟨rfl, rfl, rfl⟩
  · exact fun h => absurd rfl h
  · intro c m hm
    simp [initialState] at hm

theorem inv_step {s t : ClientState} (h : Step s t) (hs : Inv s) : Inv t := by
  obtain ⟨h1, h2, h3, h4, h5, h6, h7⟩ := hs
  cases h with
  | mount hm =>
      obtain ⟨hc0, hr0, hcid⟩ := h5 hm
      unfold mountEffect
      rw [if_pos hcid]
      refine ⟨h1, h2, ?_, ?_, ?_, fun _ => hcid, ?_⟩
      · show s.createInFlight + 1 ≤ 1
        omega
      · show createCount (s.requests ++ [.createConversation "anonymous" "MedAssist Chat"]) ≤ 1
        rw [createCount_append, createCount_create, hr0]
      · intro hfalse
        exact Bool.noConfusion hfalse
      · intro c m hmem
        rcases List.mem_append.mp hmem with hold | hnew
        · have hx := (h7 c m hold).1
          rw [hcid] at hx
          exact Option.noConfusion hx
        · exact Req.noConfusion (List.mem_singleton.mp hnew)
  | createSuccess id hc =>
      have hcid := h6 hc
      refine ⟨h1, h2, ?_, h4, ?_, ?_, ?_⟩
      · show s.createInFlight - 1 ≤ 1
        omega
      · intro hm
        exact absurd (h5 hm).1 hc
      · intro hne
        have hx : s.createInFlight - 1 ≠ 0 := hne
        exact absurd hx (by omega)
      · intro c m hmem
        have hx := (h7 c m hmem).1
        rw [hcid] at hx
        exact Option.noConfusion hx
  | createError hc =>
      refine ⟨h1, h2, ?_, h4, ?_, fun _ => h6 hc, h7⟩
      · show s.createInFlight - 1 ≤ 1
        omega
      · intro hm
        exact absurd (h5 hm).1 hc
  | editInput v hse =>
      exact ⟨h1, h2, h3, h4, h5, h6, h7⟩
  | submit =>
      by_cases hg : jsTrim s.messageInput = "" ∨ s.sendInFlight ≠ 0
      · rw [handleSendMessage_guard s hg]
        exact ⟨h1, h2, h3, h4, h5, h6, h7⟩
      · push_neg at hg
        obtain ⟨hne, hs0⟩ := hg
        cases hcid : s.conversationId with
        | none =>
            rw [handleSendMessage_none s hcid hne hs0]
            refine ⟨?_, h2, h3, h4, h5, h6, h7⟩
            show s.sendInFlight + 1 ≤ 1
            omega
        | some cid =>
            rw [handleSendMessage_some s cid hcid hne hs0]
            refine ⟨?_, h2, h3, ?_, ?_, ?_, ?_⟩
            · show s.sendInFlight + 1 ≤ 1
              omega
            · show createCount (s.requests ++ [.postMessage cid (jsTrim s.messageInput)]) ≤ 1
              rw [createCount_append, createCount_post]
              omega
            · intro hm
              have hx := (h5 hm).2.2
              rw [hcid] at hx
              exact Option.noConfusion hx
            · intro hcf
              have hx := h6 hcf
              rw [hcid] at hx
              exact Option.noConfusion hx
            · intro c m hmem
              rcases List.mem_append.mp hmem with hold | hnew
              · exact h7 c m hold
              · have hx := List.mem_singleton.mp hnew
                cases hx
                exact ⟨hcid, jsTrim_idempotent s.messageInput, hne⟩
  | sendSuccess hse =>
      refine ⟨?_, h2, h3, h4, h5, h6, h7⟩
      show s.sendInFlight - 1 ≤ 1
      omega
  | sendError msg hse =>
      refine ⟨?_, h2, h3, h4, h5, h6, h7⟩
      show s.sendInFlight - 1 ≤ 1
      omega
  | quickClick a hq =>
      refine ⟨h1, ?_, h3, ?_, ?_, h6, ?_⟩
      · show s.quickInFlight + 1 ≤ 1
        omega
      · show createCount (s.requests ++ [.quickAction a]) ≤ 1
        rw [createCount_append, createCount_quick]
        omega
      · intro hm
        refine ⟨(h5 hm).1, ?_, (h5 hm).2.2⟩
        show createCount (s.requests ++ [.quickAction a]) = 0
        rw [createCount_append, createCount_quick, (h5 hm).2.1]
      · intro c m hmem
        rcases List.mem_append.mp hmem with hold | hnew
        · exact h7 c m hold
        · exact Req.noConfusion (List.mem_singleton.mp hnew)
  | quickSuccess content now hq =>
      cases hcid : s.conversationId with
      | none =>
          rw [quickActionOnSuccess_none s content now hcid]
          refine ⟨h1, ?_, h3, h4, h5, h6, h7⟩
          show s.quickInFlight - 1 ≤ 1
          omega
      | some cid =>
          rw [quickActionOnSuccess_some s content now cid hcid]
          refine ⟨h1, ?_, h3, h4, h5, h6, h7⟩
          show s.quickInFlight - 1 ≤ 1
          omega
  | quickError msg hq =>
      refine ⟨h1, ?_, h3, h4, h5, h6, h7⟩
      show s.quickInFlight - 1 ≤ 1
      omega
  | refetch msgs hcid =>
      exact ⟨h1, h2, h3, h4, h5, h6, h7⟩

/-- Every reachable client state satisfies the master invariant. -/
theorem inv_of_reachable {s : ClientState} (h : Reachable s) : Inv s := by
  induction h with
  | init => exact inv_initial
  | step _ hstep ih => exact inv_step hstep ih

/-- `handleSendMessage` never changes the held conversation id. -/
theorem handleSendMessage_cid (s : ClientState) :
    (handleSendMessage s).conversationId = s.conversationId := by
  by_cases hg : jsTrim s.messageInput = "" ∨ s.sendInFlight ≠ 0
  · rw [handleSendMessage_guard s hg]
  · push_neg at hg
    cases hcid : s.conversationId with
    | none =>
        rw [handleSendMessage_none s hcid hg.1 hg.2]
        exact hcid
    | some cid =>
        rw [handleSendMessage_some s cid hcid hg.1 hg.2]
        exact hcid

/-- `quickActionMutation.onSuccess` never changes the held conversation id. -/
theorem quickActionOnSuccess_cid (s : ClientState) (content : String) (now : Nat) :
    (quickActionOnSuccess s content now).conversationId = s.conversationId := by
  cases hcid : s.conversationId with
  | none =>
      rw [quickActionOnSuccess_none s content now hcid]
      exact hcid
  | some cid =>
      rw [quickActionOnSuccess_some s content now cid hcid]
      exact hcid

/-! ## Concrete traces

A successful session: mount, conversation 7 created, the user types
`"  hello  "` and submits, then clicks a quick action while the send is
still in flight.  And a failing session: mount, conversation creation
fails, the user types a draft anyway. -/

def traceS1 : ClientState := mountEffect initialState

def traceS2 : ClientState := createConversationOnSuccess traceS1 7

def traceS3 : ClientState := { traceS2 with messageInput := "  hello  " }

def traceS4 : ClientState := handleSendMessage traceS3

def traceS5 : ClientState := handleQuickAction traceS4 "symptoms"

theorem reachS1 : Reachable traceS1 :=
  Reachable.step Reachable.init (Step.mount initialState rfl)

theorem reachS2 : Reachable traceS2 :=
  Reachable.step reachS1 (Step.createSuccess traceS1 7 (by decide))

theorem reachS3 : Reachable traceS3 :=
  Reachable.step reachS2 (Step.editInput traceS2 "  hello  " (by decide))

theorem reachS4 : Reachable traceS4 :=
  Reachable.step reachS3 (Step.submit traceS3)

theorem reachS5 : Reachable traceS5 :=
  Reachable.step reachS4 (Step.quickClick traceS4 "symptoms" (by decide))

def failS2 : ClientState := createConversationOnError traceS1

def failS3 : ClientState := { failS2 with messageInput := "hello" }

theorem reachFailS2 : Reachable failS2 :=
  Reachable.step reachS1 (Step.createError traceS1 (by decide))

theorem reachFailS3 : Reachable failS3 :=
  Reachable.step reachFailS2 (Step.editInput failS2 "hello" (by decide))

/-! ## Claims -/

/-- C1 counterexample: in the reachable state `failS3` (conversation
creation failed, so no conversation id is held) the draft is non-empty and
no send is in flight, yet submitting issues no `postMessage` request: the
request trace is unchanged and still holds only the initial
`createConversation`.  So "for every user submit of a non-empty draft with
no send already in flight, the client … calls postMessage" is false. -/
theorem C1_counterexample :
    Reachable failS3
  ∧ jsTrim failS3.messageInput ≠ ""
  ∧ failS3.sendInFlight = 0
  ∧ failS3.conversationId = none
  ∧ (handleSendMessage failS3).requests = failS3.requests
  ∧ (handleSendMessage failS3).requests =
      [.createConversation "anonymous" "MedAssist Chat"] :=
  ⟨reachFailS3, by decide, by decide, by decide, by decide, by decide⟩

/-- C1 (amended): for every user submit of a non-empty draft with no send
already in flight, the client enters the Typing state and calls
`postMessage` exactly when a conversation id is held (when none is held the
send fails locally without issuing a request); the draft is untouched at
submit time; on success it refreshes the displayed message list from the
server (one query invalidation, the cached list itself is not locally
appended to) and clears the draft input; on failure it exits Typing,
surfaces the error, and leaves the draft input unchanged so the user can
retry manually. -/
theorem C1_send_flow (s : ClientState)
    (hne : jsTrim s.messageInput ≠ "") (hs0 : s.sendInFlight = 0) :
    ((handleSendMessage s).isTyping = true)
  ∧ ((handleSendMessage s).messageInput = s.messageInput)
  ∧ (∀ cid : Nat, s.conversationId = some cid →
      (handleSendMessage s).requests =
        s.requests ++ [.postMessage cid (jsTrim s.messageInput)])
  ∧ (s.conversationId = none → (handleSendMessage s).requests = s.requests)
  ∧ ((sendMessageOnSuccess (handleSendMessage s)).invalidations = s.invalidations + 1
     ∧ (sendMessageOnSuccess (handleSendMessage s)).messagesCache = s.messagesCache
     ∧ (sendMessageOnSuccess (handleSendMessage s)).messageInput = ""
     ∧ (sendMessageOnSuccess (handleSendMessage s)).isTyping = false)
  ∧ (∀ msg : String,
       (sendMessageOnError (handleSendMessage s) msg).isTyping = false
     ∧ (sendMessageOnError (handleSendMessage s) msg).messageInput = s.messageInput
     ∧ (sendMessageOnError (handleSendMessage s) msg).errors = s.errors ++ [msg]) := by
  cases hcid : s.conversationId with
  | some cid =>
      rw [handleSendMessage_some s cid hcid hne hs0]
      refine ⟨rfl, rfl, ?_, ?_, ⟨rfl, rfl, rfl, rfl⟩, fun msg => ⟨rfl, rfl, rfl⟩⟩
      · intro cid' hcid'
        cases hcid'
        rfl
      · intro hx
        exact Option.noConfusion hx
  | none =>
      rw [handleSendMessage_none s hcid hne hs0]
      refine ⟨rfl, rfl, ?_, fun _ => rfl, ⟨rfl, rfl, rfl, rfl⟩, fun msg => ⟨rfl, rfl, rfl⟩⟩
      intro cid' hcid'
      exact Option.noConfusion hcid'

/-- C1 witness: the amended send flow evaluated in the reachable state
`traceS3` (conversation 7 held, draft `"  hello  "`). -/
theorem C1_send_flow_witness :
    jsTrim traceS3.messageInput ≠ "" ∧ traceS3.sendInFlight = 0 ∧
    (handleSendMessage traceS3).isTyping = true :=
  ⟨by decide, by decide, (C1_send_flow traceS3 (by decide) (by decide)).1⟩

/-- C2: when a quick action succeeds while a conversation id is held, the
displayed message list becomes exactly the old list with one assistant
message appended whose content is the returned string; every previously
displayed message is unchanged (the old list is a prefix), and no server
re-fetch happens (no query invalidation and no new request). -/
theorem C2_quick_append (s : ClientState) (cid : Nat)
    (hcid : s.conversationId = some cid) (content : String) (now : Nat) :
    ((quickActionOnSuccess s content now).messagesCache =
      s.messagesCache ++
        [{ id := now
           conversationId := some cid
           role := "assistant"
           content := content
           timestamp := now
           isTyping := false }])
  ∧ (quickActionOnSuccess s content now).invalidations = s.invalidations
  ∧ (quickActionOnSuccess s content now).requests = s.requests := by
  rw [quickActionOnSuccess_some s content now cid hcid]
  exact ⟨rfl, rfl, rfl⟩

/-- C2 witness: a quick-action success in the reachable state `traceS5`
(conversation 7 held). -/
theorem C2_quick_append_witness :
    traceS5.conversationId = some 7 ∧
    (quickActionOnSuccess traceS5 "drink water" 99).messagesCache =
      traceS5.messagesCache ++
        [{ id := 99
           conversationId := some 7
           role := "assistant"
           content := "drink water"
           timestamp := 99
           isTyping := false }] :=
  ⟨by decide, (C2_quick_append traceS5 7 (by decide) "drink water" 99).1⟩

/-- C3: a submit whose trimmed draft is empty, or made while a send is
pending, is a no-op (no request, client state untouched); when a request is
issued its content is exactly the trimmed draft; and every `postMessage`
the client ever issues carries trimmed (no leading/trailing whitespace),
non-empty content. -/
theorem C3_submit_validation :
    (∀ s : ClientState, jsTrim s.messageInput = "" ∨ s.sendInFlight ≠ 0 →
       handleSendMessage s = s)
  ∧ (∀ (s : ClientState) (cid : Nat), s.conversationId = some cid →
       jsTrim s.messageInput ≠ "" → s.sendInFlight = 0 →
       (handleSendMessage s).requests =
         s.requests ++ [.postMessage cid (jsTrim s.messageInput)])
  ∧ (∀ s : ClientState, Reachable s → ∀ c m, Req.postMessage c m ∈ s.requests →
       jsTrim m = m ∧ m ≠ "") := by
  refine ⟨handleSendMessage_guard, ?_, ?_⟩
  · intro s cid hcid hne hs0
    rw [handleSendMessage_some s cid hcid hne hs0]
  · intro s hreach c m hmem
    exact ⟨((inv_of_reachable hreach).2.2.2.2.2.2 c m hmem).2.1,
           ((inv_of_reachable hreach).2.2.2.2.2.2 c m hmem).2.2⟩

/-- C3 witness: the no-op guard evaluated at the initial state (empty
draft), and the trimmed-send evaluated at `traceS3`. -/
theorem C3_submit_validation_witness :
    handleSendMessage initialState = initialState ∧
    (handleSendMessage traceS3).requests =
      traceS3.requests ++ [.postMessage 7 (jsTrim traceS3.messageInput)] :=
  ⟨C3_submit_validation.1 initialState (Or.inl (by decide)),
   C3_submit_validation.2.1 traceS3 7 (by decide) (by decide) (by decide)⟩

/-- C4: the Typing flag is set on every outbound send (a submit that passes
the guard) and on every outbound quick action, and is cleared by each
mutation's completion callback, success and failure alike. -/
theorem C4_typing_flag :
    (∀ s : ClientState, jsTrim s.messageInput ≠ "" → s.sendInFlight = 0 →
       (handleSendMessage s).isTyping = true)
  ∧ (∀ (s : ClientState) (a : String), (handleQuickAction s a).isTyping = true)
  ∧ (∀ s : ClientState, (sendMessageOnSuccess s).isTyping = false)
  ∧ (∀ (s : ClientState) (msg : String), (sendMessageOnError s msg).isTyping = false)
  ∧ (∀ (s : ClientState) (content : String) (now : Nat),
       (quickActionOnSuccess s content now).isTyping = false)
  ∧ (∀ (s : ClientState) (msg : String), (quickActionOnError s msg).isTyping = false) := by
  refine ⟨?_, fun s a => rfl, fun s => rfl, fun s msg => rfl, ?_, fun s msg => rfl⟩
  · intro s hne hs0
    cases hcid : s.conversationId with
    | none =>
        rw [handleSendMessage_none s hcid hne hs0]
    | some cid =>
        rw [handleSendMessage_some s cid hcid hne hs0]
  · intro s content now
    cases hcid : s.conversationId with
    | none =>
        rw [quickActionOnSuccess_none s content now hcid]
    | some cid =>
        rw [quickActionOnSuccess_some s content now cid hcid]

/-- C4 witness: Typing is set by the submit in `traceS3` and cleared by an
error completion. -/
theorem C4_typing_flag_witness :
    (handleSendMessage traceS3).isTyping = true ∧
    (sendMessageOnError (handleSendMessage traceS3) "boom").isTyping = false :=
  ⟨C4_typing_flag.1 traceS3 (by decide) (by decide),
   C4_typing_flag.2.2.2.1 (handleSendMessage traceS3) "boom"⟩

/-- C5: in every reachable state at most one send and at most one quick
action are in flight (the submit guard and the disabled quick-action
buttons); and `traceS5` is a reachable state with a send and a quick action
simultaneously in flight, from which the two completions can arrive in
either order. -/
theorem C5_single_flight :
    (∀ s : ClientState, Reachable s → s.sendInFlight ≤ 1 ∧ s.quickInFlight ≤ 1)
  ∧ (Reachable traceS5
     ∧ traceS5.sendInFlight = 1
     ∧ traceS5.quickInFlight = 1
     ∧ Reachable (quickActionOnSuccess (sendMessageOnSuccess traceS5) "ok" 42)
     ∧ Reachable (sendMessageOnSuccess (quickActionOnSuccess traceS5 "ok" 42))) := by
  refine ⟨?_, reachS5, by decide, by decide, ?_, ?_⟩
  · intro s hreach
    exact ⟨(inv_of_reachable hreach).1, (inv_of_reachable hreach).2.1⟩
  · exact Reachable.step
      (Reachable.step reachS5 (Step.sendSuccess traceS5 (by decide)))
      (Step.quickSuccess (sendMessageOnSuccess traceS5) "ok" 42 (by decide))
  · exact Reachable.step
      (Reachable.step reachS5 (Step.quickSuccess traceS5 "ok" 42 (by decide)))
      (Step.sendSuccess (quickActionOnSuccess traceS5 "ok" 42) (by decide))

/-- C5 witness: the in-flight bounds evaluated at the initial state. -/
theorem C5_single_flight_witness :
    initialState.sendInFlight ≤ 1 ∧ initialState.quickInFlight ≤ 1 :=
  C5_single_flight.1 initialState Reachable.init

/-- C6: on mount with no conversation id held the client issues the fixed
`createConversation` request; across every reachable state at most one such
request is ever issued (so it is exactly one, and there is no automatic
retry); on success the returned id is stored; on failure a user-visible
error is added, no new request is issued, and the conversation id is left
as it was — which is `none`, since it is `none` whenever the create request
is in flight. -/
theorem C6_mount_create :
    (∀ s : ClientState, s.conversationId = none →
       (mountEffect s).requests =
         s.requests ++ [.createConversation "anonymous" "MedAssist Chat"])
  ∧ (∀ s : ClientState, Reachable s → createCount s.requests ≤ 1)
  ∧ (∀ (s : ClientState) (id : Nat),
       (createConversationOnSuccess s id).conversationId = some id)
  ∧ (∀ s : ClientState,
       (createConversationOnError s).conversationId = s.conversationId
     ∧ (createConversationOnError s).errors =
         s.errors ++ ["Failed to start conversation. Please refresh the page."]
     ∧ (createConversationOnError s).requests = s.requests)
  ∧ (∀ s : ClientState, Reachable s → s.createInFlight ≠ 0 →
       s.conversationId = none) := by
  refine ⟨?_, ?_, fun s id => rfl, fun s => ⟨rfl, rfl, rfl⟩, ?_⟩
  · intro s hcid
    unfold mountEffect
    rw [if_pos hcid]
  · intro s hreach
    exact (inv_of_reachable hreach).2.2.2.1
  · intro s hreach hcf
    exact (inv_of_reachable hreach).2.2.2.2.2.1 hcf

/-- C6 witness: the mount request evaluated at the initial state, and the
create-failure behaviour evaluated at `traceS1`. -/
theorem C6_mount_create_witness :
    (mountEffect initialState).requests =
      [.createConversation "anonymous" "MedAssist Chat"]
  ∧ (createConversationOnError traceS1).conversationId = none :=
  ⟨C6_mount_create.1 initialState (by decide),
   (C6_mount_create.2.2.2.1 traceS1).1⟩

/-- C7 counterexample: `insertMessageSchema` accepts a message whose role
is `"system"`, which is neither `"user"` nor `"assistant"` — the validation
layer does not reject role strings outside the documented enum. -/
theorem C7_counterexample :
    insertMessageSchemaParse
        { id := none
          conversationId := some (some 1)
          role := some "system"
          content := some "hello"
          timestamp := none
          isTyping := none } =
      some { conversationId := some (some 1), role := "system", content := "hello" }
  ∧ ("system" : String) ≠ "user"
  ∧ ("system" : String) ≠ "assistant" :=
  ⟨rfl, by decide, by decide⟩

/-- C7 (amended): the validation layer requires `role` to be present (a
message without a role is rejected) but accepts any role string whatsoever;
`{user, assistant}` is a documented convention of the code, not a rule the
schema enforces before persistence. -/
theorem C7_role_unrestricted :
    (∀ (a : Option Nat) (cid : Option (Option Nat)) (r c : String)
       (b : Option Nat) (t : Option Bool),
       insertMessageSchemaParse ⟨a, cid, some r, some c, b, t⟩ = some ⟨cid, r, c⟩)
  ∧ (∀ (a : Option Nat) (cid : Option (Option Nat)) (c : Option String)
       (b : Option Nat) (t : Option Bool),
       insertMessageSchemaParse ⟨a, cid, none, c, b, t⟩ = none) := by
  refine ⟨fun a cid r c b t => rfl, ?_⟩
  intro a cid c b t
  cases c <;> rfl

/-- C8: the insert schemas accept exactly the creation-time subset of
fields.  `insertMessageSchemaParse` is insensitive to `id`, `timestamp` and
`isTyping`, succeeds exactly on a present `role` and `content` (keeping the
optional `conversationId`), and its output type has no id/timestamp/isTyping
fields; `insertConversationSchemaParse` is insensitive to `id` and
`createdAt` and keeps only `userId` and `title` — so ids and creation
timestamps are always server-assigned. -/
theorem C8_creation_subset :
    (∀ (i : MessageInput) (a b : Option Nat) (t : Option Bool),
       insertMessageSchemaParse { i with id := a, timestamp := b, isTyping := t } =
         insertMessageSchemaParse i)
  ∧ (∀ (a : Option Nat) (cid : Option (Option Nat)) (r c : String)
       (b : Option Nat) (t : Option Bool),
       insertMessageSchemaParse ⟨a, cid, some r, some c, b, t⟩ = some ⟨cid, r, c⟩)
  ∧ (∀ i : MessageInput, insertMessageSchemaParse { i with role := none } = none)
  ∧ (∀ i : MessageInput, insertMessageSchemaParse { i with content := none } = none)
  ∧ (∀ (i : ConversationInput) (a d : Option Nat),
       insertConversationSchemaParse { i with id := a, createdAt := d } =
         insertConversationSchemaParse i)
  ∧ (∀ (a : Option Nat) (u ti : Option (Option String)) (d : Option Nat),
       insertConversationSchemaParse ⟨a, u, ti, d⟩ = some ⟨u, ti⟩) := by
  refine ⟨fun i a b t => rfl, fun a cid r c b t => rfl, ?_, ?_,
          fun i a d => rfl, fun a u ti d => rfl⟩
  · intro i
    show insertMessageSchemaParse ⟨i.id, i.conversationId, none, i.content, i.timestamp, i.isTyping⟩ = none
    cases i.content <;> rfl
  · intro i
    show insertMessageSchemaParse ⟨i.id, i.conversationId, i.role, none, i.timestamp, i.isTyping⟩ = none
    cases i.role <;> rfl

/-- C9: if no conversation id is held when a quick action succeeds, the
returned content is silently discarded: the resulting state is the old one
with only the Typing flag cleared (and the completed request no longer
pending) — same message list, same draft, same errors, no toast. -/
theorem C9_quick_discarded (s : ClientState)
    (hcid : s.conversationId = none) (content : String) (now : Nat) :
    quickActionOnSuccess s content now =
      { s with isTyping := false
               quickInFlight := s.quickInFlight - 1 } :=
  quickActionOnSuccess_none s content now hcid

/-- C9 witness: a quick-action success in the reachable state `failS2`
(conversation creation failed, no id held). -/
theorem C9_quick_discarded_witness :
    failS2.conversationId = none ∧
    quickActionOnSuccess failS2 "tips" 42 =
      { failS2 with isTyping := false
                    quickInFlight := failS2.quickInFlight - 1 } :=
  ⟨by decide, C9_quick_discarded failS2 (by decide) "tips" 42⟩

/-- C10: the conversation id starts `none`, no step of the client ever
resets or replaces a held id, and every `postMessage` ever issued targets
the currently held id — so every send in a session goes to the single
conversation created on mount. -/
theorem C10_cid_write_once :
    initialState.conversationId = none
  ∧ (∀ (s t : ClientState) (c : Nat), Reachable s → Step s t →
       s.conversationId = some c → t.conversationId = some c)
  ∧ (∀ s : ClientState, Reachable s → ∀ c m, Req.postMessage c m ∈ s.requests →
       s.conversationId = some c) := by
  refine ⟨rfl, ?_, ?_⟩
  · intro s t c hreach hstep hsc
    have hinv := inv_of_reachable hreach
    cases hstep with
    | mount hm =>
        unfold mountEffect
        rw [if_neg (by rw [hsc]; exact fun hx => Option.noConfusion hx)]
        exact hsc
    | createSuccess id hc =>
        have hx := hinv.2.2.2.2.2.1 hc
        rw [hsc] at hx
        exact Option.noConfusion hx
    | createError hc => exact hsc
    | editInput v hse => exact hsc
    | submit => exact (handleSendMessage_cid s).trans hsc
    | sendSuccess hse => exact hsc
    | sendError msg hse => exact hsc
    | quickClick a hq => exact hsc
    | quickSuccess content now hq =>
        exact (quickActionOnSuccess_cid s content now).trans hsc
    | quickError msg hq => exact hsc
    | refetch msgs hcid => exact hsc
  · intro s hreach c m hmem
    exact ((inv_of_reachable hreach).2.2.2.2.2.2 c m hmem).1

/-- C10 witness: the held id survives a step — editing the draft in
`traceS2` keeps conversation 7. -/
theorem C10_cid_write_once_witness :
    traceS2.conversationId = some 7 ∧ traceS3.conversationId = some 7 :=
  ⟨by decide,
   C10_cid_write_once.2.1 traceS2 traceS3 7 reachS2
     (Step.editInput traceS2 "  hello  " (by decide)) (by decide)⟩

end MedBot
